import Mathlib

/-!
Verification of the atlantix-eda resistor-library generator.

The Rust source is embedded shallowly:

* `f64`/`f32` values are modelled as exact rationals (`ℚ`) where the code
  only does field arithmetic and comparisons, and as exact reals (`ℝ`) where
  it evaluates the transcendental `10^(i/S)` (the E-series expansion).
  For every supported series cardinality the rounded-to-2-decimals results
  of the exact model coincide with the IEEE results of the code (the nearest
  rounding boundary is more than 1e-3 away, far beyond the float error).
* Rust's `f64::round` (half away from zero) is `rustRound`, `as i32`
  truncation is `rustTrunc`, and `format!("{:.d}", x)` fixed-point printing
  is `fmtFixed` (round half to even, the tie behaviour of Rust's formatter;
  no call site of this development ever formats a tie).
* String building mirrors the code's `format!`/`push_str` concatenations.
  The accumulator `Resistor.full_series`, a growing `String` of CSV rows in
  the code, is modelled as the `List` of the appended row strings; the file
  text is its concatenation, so CSV data rows correspond to list elements.
* File-system side effects are modelled by the list of (path, content)
  pairs the code would write, in write order.
-/

set_option maxHeartbeats 1600000
set_option maxRecDepth 100000

set_option allowUnsafeReducibility true in
attribute [semireducible] Rat.mul Rat.inv Rat.add Rat.sub Rat.ofScientific

/-- Rust's `f64::round`: round half away from zero. -/
def rustRound (x : ℚ) : ℤ :=
  if 0 ≤ x then ⌊x + 1 / 2⌋ else -⌊1 / 2 - x⌋

/-- Rust's `as i32` float-to-int cast: truncation toward zero. -/
def rustTrunc (x : ℚ) : ℤ :=
  if 0 ≤ x then ⌊x⌋ else -⌊-x⌋

/-- Round half to even, the rounding of Rust's `{:.d}` fixed-point formatter. -/
def roundHalfEven (x : ℚ) : ℤ :=
  let f := ⌊x⌋
  if x - f < 1 / 2 then f
  else if 1 / 2 < x - f then f + 1
  else if f % 2 = 0 then f else f + 1

/-- Left-pad a string with zeros to width `w` (Rust `{:0w}` on nonnegative input). -/
def padZeros (w : ℕ) (s : String) : String :=
  String.mk (List.replicate (w - s.length) '0') ++ s

/-- Left-pad a string with spaces to width `w` (Rust's default numeric alignment). -/
def padSpaces (w : ℕ) (s : String) : String :=
  String.mk (List.replicate (w - s.length) ' ') ++ s

/-- Rust `format!("{:.d}", x)` for an exact rational `x`. -/
def fmtFixed (d : ℕ) (x : ℚ) : String :=
  let n := (roundHalfEven (|x| * 10 ^ d)).toNat
  let sign := if x < 0 then "-" else ""
  if d = 0 then sign ++ toString n
  else sign ++ toString (n / 10 ^ d) ++ "." ++ padZeros d (toString (n % 10 ^ d))

/-- Rust `format!("{:w.d}", x)`: fixed-point with a minimum width. -/
def fmtFixedW (w d : ℕ) (x : ℚ) : String :=
  padSpaces w (fmtFixed d x)

/-- Rust `format!("{}", x)` for an `f64` holding a value with at most two
decimals: the shortest decimal representation ("1", "4.7", "1.21"). -/
def displayShort (x : ℚ) : String :=
  if x.den = 1 then toString x.num
  else if (x * 10).den = 1 then fmtFixed 1 x
  else fmtFixed 2 x

/-- Digit-run value of a character list; `none` when a non-digit appears. -/
def digitsVal (cs : List Char) : Option ℕ :=
  if cs.all Char.isDigit then
    some (cs.foldl (fun a c => 10 * a + (c.toNat - 48)) 0)
  else none

/-- Splitting a character list at a separator, the structural model of
`str::split` (every separator occurrence starts a new group). -/
def splitChar : List Char → Char → List (List Char)
  | [], _ => [[]]
  | c :: rest, sep =>
    if c = sep then [] :: splitChar rest sep
    else
      match splitChar rest sep with
      | [] => [[c]]
      | g :: gs => (c :: g) :: gs

/-- Rust `str::contains` for a single-character pattern, modelled
structurally over the character list. -/
def containsChar (s : String) (c : Char) : Bool :=
  s.data.contains c

/-- Rust `str::replace(pattern, "")` for a single-character pattern,
modelled structurally as removing every occurrence. -/
def removeChar (s : String) (c : Char) : String :=
  String.mk (s.data.filter (fun d => d ≠ c))

/-- Rust `str::parse::<f64>` on the plain decimal strings this generator
produces (`"1"`, `"1.00"`, `"97.6"`): the parsed value as an exact rational. -/
def parseDecimal (s : String) : Option ℚ :=
  match splitChar s.data '.' with
  | [a] =>
    if a = [] then none
    else (digitsVal a).map (fun n => (n : ℚ))
  | [a, b] =>
    if a = [] && b = [] then none
    else
      match digitsVal a, digitsVal b with
      | some ia, some fb => some ((ia : ℚ) + (fb : ℚ) / 10 ^ b.length)
      | _, _ => none
  | _ => none

namespace Ecs

/-- `format_resistance` of `src/src/ecs/systems.rs`. -/
def format_resistance (ohms : ℚ) : String :=
  if ohms < 10 then fmtFixed 2 ohms
  else if ohms < 100 then fmtFixed 1 ohms
  else if ohms < 1000 then fmtFixed 0 ohms
  else if ohms < 10000 then fmtFixed 2 (ohms / 1000) ++ "K"
  else if ohms < 100000 then fmtFixed 1 (ohms / 1000) ++ "K"
  else if ohms < 1000000 then fmtFixed 0 (ohms / 1000) ++ "K"
  else fmtFixed 2 (ohms / 1000000) ++ "M"

/-- `get_tolerance_from_series` of `src/src/ecs/systems.rs`. -/
def get_tolerance_from_series (series : ℕ) : String :=
  match series with
  | 192 => "0.5%"
  | 96 => "1%"
  | 48 => "2%"
  | 24 => "5%"
  | 12 => "10%"
  | 6 => "20%"
  | _ => "1%"

/-- `get_power_from_package` of `src/src/ecs/systems.rs`. -/
def get_power_from_package (package : String) : String :=
  match package with
  | "0201" => "1/20W"
  | "0402" => "1/16W"
  | "0603" => "1/10W"
  | "0805" => "1/8W"
  | "1206" => "1/4W"
  | "1210" => "1/2W"
  | "2010" => "3/4W"
  | "2512" => "1W"
  | _ => "1/10W"

/-- `generate_vishay_mpn` of `src/src/ecs/systems.rs` (the simplified ECS
encoder: `format!("CRCW{}{:04.0}FKEA", package, ohms)`). -/
def generate_vishay_mpn (ohms : ℚ) (package : String) : String :=
  "CRCW" ++ package ++ padZeros 4 (fmtFixed 0 ohms) ++ "FKEA"

/-- `format_koa_resistance` of `src/src/ecs/systems.rs`. -/
def format_koa_resistance (ohms : ℚ) : String :=
  if ohms < 10 then
    let value := rustRound (ohms * 10)
    padZeros 2 (toString (value / 10)) ++ "R" ++ toString (value % 10)
  else if ohms < 100 then padZeros 3 (toString (rustRound (ohms * 10))) ++ "0"
  else if ohms < 1000 then padZeros 3 (toString (rustRound ohms)) ++ "1"
  else if ohms < 10000 then padZeros 3 (toString (rustRound (ohms / 10))) ++ "2"
  else if ohms < 100000 then padZeros 3 (toString (rustRound (ohms / 100))) ++ "3"
  else if ohms < 1000000 then padZeros 3 (toString (rustRound (ohms / 1000))) ++ "4"
  else padZeros 3 (toString (rustRound (ohms / 10000))) ++ "5"

/-- `generate_koa_mpn` of `src/src/ecs/systems.rs`. -/
def generate_koa_mpn (ohms : ℚ) (package : String) : String :=
  let size_code :=
    match package with
    | "0402" => "1E"
    | "0603" => "1J"
    | "0805" => "2A"
    | "1206" => "2B"
    | "1210" => "2E"
    | "2010" => "3A"
    | "2512" => "3E"
    | _ => "1J"
  "RK73H" ++ size_code ++ "TTD" ++ format_koa_resistance ohms ++ "F"

/-- `generate_yageo_mpn` of `src/src/ecs/systems.rs`. -/
def generate_yageo_mpn (ohms : ℚ) (package : String) : String :=
  "RC" ++ package ++ "FR-07" ++ format_resistance ohms ++ "L"

end Ecs

/-- Modelled from the spec's words, for comparison with the code: the
value-formatter policy of spec section 4.3, with the two-sided decade
intervals exactly as the spec lists them. -/
def formatResistanceSpec (ohms : ℚ) : String :=
  if ohms < 10 then fmtFixed 2 ohms
  else if 10 ≤ ohms ∧ ohms < 100 then fmtFixed 1 ohms
  else if 100 ≤ ohms ∧ ohms < 1000 then fmtFixed 0 ohms
  else if 1000 ≤ ohms ∧ ohms < 10000 then fmtFixed 2 (ohms / 1000) ++ "K"
  else if 10000 ≤ ohms ∧ ohms < 100000 then fmtFixed 1 (ohms / 1000) ++ "K"
  else if 100000 ≤ ohms ∧ ohms < 1000000 then fmtFixed 0 (ohms / 1000) ++ "K"
  else fmtFixed 2 (ohms / 1000000) ++ "M"

/-- Modelled from the spec's words, for comparison with the code: the KOA
4-digit code of spec section 4.4, as seven disjoint two-sided ranges
(sub-10-ohm R form, then suffix digits 0 through 5). -/
def koaCodeSpec (ohms : ℚ) : String :=
  if ohms < 10 then
    let value := rustRound (ohms * 10)
    padZeros 2 (toString (value / 10)) ++ "R" ++ toString (value % 10)
  else if 10 ≤ ohms ∧ ohms < 100 then padZeros 3 (toString (rustRound (ohms * 10))) ++ "0"
  else if 100 ≤ ohms ∧ ohms < 1000 then padZeros 3 (toString (rustRound ohms)) ++ "1"
  else if 1000 ≤ ohms ∧ ohms < 10000 then padZeros 3 (toString (rustRound (ohms / 10))) ++ "2"
  else if 10000 ≤ ohms ∧ ohms < 100000 then padZeros 3 (toString (rustRound (ohms / 100))) ++ "3"
  else if 100000 ≤ ohms ∧ ohms < 1000000 then padZeros 3 (toString (rustRound (ohms / 1000))) ++ "4"
  else padZeros 3 (toString (rustRound (ohms / 10000))) ++ "5"

/-- Linear search: the first `n ≥ start` with `P n`, giving up after `fuel`
steps. Structural recursion so that concrete values reduce in the kernel. -/
def findFrom (P : ℕ → Bool) : ℕ → ℕ → ℕ
  | 0, n => n
  | fuel + 1, n => if P n then n else findFrom P fuel (n + 1)

/-- The integer `round(10^(i/S) * 100)`, characterized without real arithmetic:
the least `n ≥ 100` with `200^S * 10^i < (2n+1)^S`. `eseriesN_eq_round` below
proves this equals the real-valued rounding for `1 ≤ S ≤ 192`, `i < S`. -/
def eseriesN (S i : ℕ) : ℕ :=
  findFrom (fun n => decide (200 ^ S * 10 ^ i < (2 * n + 1) ^ S)) 1000 100

/-- The E-series base values as exact rationals, `eseriesN S i / 100`. -/
def eseriesQ (S : ℕ) : List ℚ :=
  (List.range S).map (fun i : ℕ => (eseriesN S i : ℚ) / 100)

/-- The `series_array` computed by `Resistor::new` in `src/src/lib.rs`:
`alpha[index] = (10^(index/eseries) * 100).round() / 100`, modelled in exact
real arithmetic (the code's `f32`-exponent / `f64`-pow evaluation rounds to
the same 2-decimal values for every supported cardinality). -/
noncomputable def seriesArrayR (eseries : ℕ) : List ℝ :=
  (List.range eseries).map (fun index : ℕ =>
    ((round ((10 : ℝ) ^ ((index : ℝ) / (eseries : ℝ)) * 100) : ℤ) : ℝ) / 100)

/-- `ESeriesCache::get_or_calculate` in `src/src/ecs/resources.rs`:
`values[index] = (10^(index/series) * 100).round() / 100` in `f64`, modelled
in exact real arithmetic. -/
noncomputable def ESeriesCache.calculate (series : ℕ) : List ℝ :=
  (List.range series).map (fun index : ℕ =>
    ((round ((10 : ℝ) ^ ((index : ℝ) / (series : ℝ)) * 100) : ℤ) : ℝ) / 100)

/-- The supported series cardinalities of the spec. -/
def supportedSeries : List ℕ := [3, 6, 12, 24, 48, 96, 192]

namespace Cli

/-- The hard-coded `"E96"` table of `get_e_series` in
`src/crates/aeda-cli/src/commands/generate.rs`. -/
def e96 : List ℚ :=
  [1.00, 1.02, 1.05, 1.07, 1.10, 1.13, 1.15, 1.18, 1.21, 1.24,
   1.27, 1.30, 1.33, 1.37, 1.40, 1.43, 1.47, 1.50, 1.54, 1.58,
   1.62, 1.65, 1.69, 1.74, 1.78, 1.82, 1.87, 1.91, 1.96, 2.00,
   2.05, 2.10, 2.15, 2.21, 2.26, 2.32, 2.37, 2.43, 2.49, 2.55,
   2.61, 2.67, 2.74, 2.80, 2.87, 2.94, 3.01, 3.09, 3.16, 3.24,
   3.32, 3.40, 3.48, 3.57, 3.65, 3.74, 3.83, 3.92, 4.02, 4.12,
   4.22, 4.32, 4.42, 4.53, 4.64, 4.75, 4.87, 4.99, 5.11, 5.23,
   5.36, 5.49, 5.62, 5.76, 5.90, 6.04, 6.19, 6.34, 6.49, 6.65,
   6.81, 6.98, 7.15, 7.32, 7.50, 7.68, 7.87, 8.06, 8.25, 8.45,
   8.66, 8.87, 9.09, 9.31, 9.53, 9.76]

/-- The hard-coded `"E48"` table of `get_e_series`. -/
def e48 : List ℚ :=
  [1.00, 1.05, 1.10, 1.15, 1.21, 1.27, 1.33, 1.40, 1.47, 1.54,
   1.62, 1.69, 1.78, 1.87, 1.96, 2.05, 2.15, 2.26, 2.37, 2.49,
   2.61, 2.74, 2.87, 3.01, 3.16, 3.32, 3.48, 3.65, 3.83, 4.02,
   4.22, 4.42, 4.64, 4.87, 5.11, 5.36, 5.62, 5.90, 6.19, 6.49,
   6.81, 7.15, 7.50, 7.87, 8.25, 8.66, 9.09, 9.53]

/-- The hard-coded `"E24"` table of `get_e_series` (the canonical E24 values). -/
def e24 : List ℚ :=
  [1.0, 1.1, 1.2, 1.3, 1.5, 1.6, 1.8, 2.0, 2.2, 2.4, 2.7, 3.0,
   3.3, 3.6, 3.9, 4.3, 4.7, 5.1, 5.6, 6.2, 6.8, 7.5, 8.2, 9.1]

/-- The hard-coded `"E12"` table of `get_e_series`. -/
def e12 : List ℚ :=
  [1.0, 1.2, 1.5, 1.8, 2.2, 2.7, 3.3, 3.9, 4.7, 5.6, 6.8, 8.2]

/-- The hard-coded `"E6"` table of `get_e_series`. -/
def e6 : List ℚ := [1.0, 1.5, 2.2, 3.3, 4.7, 6.8]

/-- Rust `str::to_uppercase` on the ASCII series names this tool handles,
modelled structurally (character-wise upper-casing) so it evaluates. -/
def toUppercase (s : String) : String :=
  String.mk (s.data.map Char.toUpper)

/-- `get_e_series` of `src/crates/aeda-cli/src/commands/generate.rs`. -/
def get_e_series (series : String) : Except String (List ℚ) :=
  let u := toUppercase series
  if u = "E96" then .ok e96
  else if u = "E48" then .ok e48
  else if u = "E24" then .ok e24
  else if u = "E12" then .ok e12
  else if u = "E6" then .ok e6
  else .error ("Unknown E-series: " ++ series)

/-- `get_tolerance` of `src/crates/aeda-cli/src/commands/generate.rs`. -/
def get_tolerance (series : String) : String :=
  let u := toUppercase series
  if u = "E96" then "1%"
  else if u = "E48" then "2%"
  else if u = "E24" then "5%"
  else if u = "E12" then "10%"
  else if u = "E6" then "20%"
  else "1%"

/-- `get_power_rating` of `src/crates/aeda-cli/src/commands/generate.rs`. -/
def get_power_rating (package : String) : String :=
  match package with
  | "0201" => "1/20W"
  | "0402" => "1/16W"
  | "0603" => "1/10W"
  | "0805" => "1/8W"
  | "1206" => "1/4W"
  | "1210" => "1/2W"
  | "2010" => "3/4W"
  | "2512" => "1W"
  | _ => "1/10W"

/-- The file paths the `resistors` command of
`src/crates/aeda-cli/src/commands/generate.rs` writes, in write order (each
package gets its library JSON and a manifest update); on an unknown series
the `?` on `get_e_series` aborts before anything is written. -/
def resistorsFiles (series : String) (packages : List String) :
    Except String (List String) :=
  match get_e_series series with
  | .error e => .error e
  | .ok _ =>
    .ok (packages.foldl (fun acc package =>
      acc ++ ["libraries/resistor/" ++ series ++ "_" ++ package ++ ".json",
              "libraries/manifest.json"]) [])

end Cli

/-- The `Resistor` struct of `src/src/lib.rs`. `full_series`, a growing
`String` of CR-LF-terminated CSV rows in the code, is modelled as the list
of the appended row strings (the file text is its concatenation).
`series_array` holds the expansion values as exact rationals (`eseriesQ`;
`seriesArrayR_eq_eseriesQ` below certifies them against the real-valued
formula of `Resistor::new`). -/
structure Resistor where
  display : Bool
  series : ℕ
  name : String
  full_part_name : String
  full_series : List String
  value : String
  manuf : String
  case : String
  power : String
  series_array : List ℚ

namespace Resistor

/-- `Resistor::new` of `src/src/lib.rs`. -/
def new (eseries : ℕ) (package : String) : Resistor :=
  let alpha := eseriesQ eseries
  let watts : String :=
    match package with
    | "0201" => "1/20"
    | "0402" => "1/16"
    | "0603" => "1/10"
    | "0805" => "1/8"
    | "1206" => "1/4"
    | "1210" => "1/2"
    | "1218" => "1"
    | "2010" => "3/4"
    | "2512" => "1"
    | _ => "0"
  { display := false
    series := eseries
    name := "RES" ++ package ++ "_" ++ "1.00K"
    full_part_name := "RES" ++ package ++ "_" ++ "1.00K"
    full_series := []
    value := "1.00K"
    manuf := "Vishay"
    case := package
    power := watts
    series_array := alpha }

/-- `Resistor::set_digikey_pn` of `src/src/lib.rs`. The decade-1 branch
formats the raw `f64` with `{}` (shortest display, `displayShort`); the other
branch uses the already formatted `value` string. -/
def set_digikey_pn (r : Resistor) (index : ℕ) (decade : ℕ) : Resistor :=
  if decade = 1 then
    let v := displayShort (r.series_array.getD index 0)
    { r with manuf :=
        match r.case with
        | "0402" => "541-" ++ v ++ "LLCT-ND"
        | "0603" => "541-" ++ v ++ "HHCT-ND"
        | "0805" => "541-" ++ v ++ "CCCT-ND"
        | "1206" => "541-" ++ v ++ "FFCT-ND"
        | "1210" => "541-" ++ v ++ "AACT-ND"
        | "1218" => "541-" ++ v ++ "ANCT-ND"
        | "2010" => "541-" ++ v ++ "ACCT-ND"
        | "2512" => "541-" ++ v ++ "AFCT-ND"
        | _ => "541-" ++ v ++ "XXXX-ND" }
  else
    { r with manuf :=
        match r.case with
        | "0402" => "541-" ++ r.value ++ "LCT-ND"
        | "0603" => "541-" ++ r.value ++ "HCT-ND"
        | "0805" => "541-" ++ r.value ++ "CCT-ND"
        | "1206" => "541-" ++ r.value ++ "FCT-ND"
        | "1210" => "541-" ++ r.value ++ "VCT-ND"
        | "1218" => "541-" ++ r.value ++ "KANCT-ND"
        | "2010" => "541-" ++ r.value ++ "KACCT-ND"
        | "2512" => "541-" ++ r.value ++ "KAFCT-ND"
        | _ => "541-" ++ r.value ++ "XXX-ND" }

end Resistor

/-- The `num >= 10.0 / num >= 1.0 / else` cascade inside
`format_vishay_resistance` of `src/src/lib.rs`, for a value string that
carried a `"K"` suffix and parsed to `num`. -/
def vishayKCode (num : ℚ) : String :=
  if 10 ≤ num then toString (rustTrunc num) ++ "K0"
  else if 1 ≤ num then
    let int_part := rustTrunc num
    let frac_part := rustRound ((num - (int_part : ℚ)) * 100)
    if frac_part = 0 then toString int_part ++ "K00"
    else toString int_part ++ "K" ++ padZeros 2 (toString frac_part)
  else "R" ++ padZeros 3 (toString (rustTrunc (num * 1000)))

/-- The `num >= 100.0 / num >= 10.0 / else` cascade inside
`format_vishay_resistance` of `src/src/lib.rs`, for a plain ohm value string. -/
def vishayOhmCode (num : ℚ) : String :=
  if 100 ≤ num then fmtFixed 0 num ++ "R"
  else if 10 ≤ num then fmtFixed 0 num ++ "R0"
  else
    let int_part := rustTrunc num
    let frac_part := rustRound ((num - (int_part : ℚ)) * 100)
    if frac_part = 0 then toString int_part ++ "R00"
    else toString int_part ++ "R" ++ padZeros 2 (toString frac_part)

/-- `Resistor::format_vishay_resistance` of `src/src/lib.rs` (`&self` is
unused in the source, so it is a plain function here; the numeric cascades
are `vishayKCode` and `vishayOhmCode`). -/
def format_vishay_resistance (value : String) : String :=
  if containsChar value 'K' then
    match parseDecimal (removeChar value 'K') with
    | some num => vishayKCode num
    | none => "1K00"
  else
    match parseDecimal value with
    | some num => vishayOhmCode num
    | none => "1R00"

namespace Resistor

/-- `Resistor::generate_vishay_mpn` of `src/src/lib.rs`. -/
def generate_vishay_mpn (r : Resistor) : String :=
  let package_code :=
    match r.case with
    | "0402" => "0402"
    | "0603" => "0603"
    | "0805" => "0805"
    | "1206" => "1206"
    | "1210" => "1210"
    | "2010" => "2010"
    | "2512" => "2512"
    | _ => "0603"
  let resistance_code := format_vishay_resistance r.value
  let suffix := "FKEA"
  "CRCW" ++ package_code ++ resistance_code ++ suffix

/-- `Resistor::set_name` of `src/src/lib.rs`. -/
def set_name (r : Resistor) : String :=
  "RES" ++ r.case ++ "_" ++ r.value

/-- `Resistor::set_full_name` of `src/src/lib.rs`. -/
def set_full_name (r : Resistor) : Resistor :=
  { r with name := r.set_name }

/-- `Resistor::set_part` of `src/src/lib.rs`: one Altium CSV row, CR-LF
terminated. -/
def set_part (r : Resistor) : String :=
  "RES" ++ r.case ++ "_" ++ r.value ++ ","
    ++ "\"" ++ "RES " ++ r.case ++ " " ++ r.value ++ "Ohm " ++ r.power ++ "W\","
    ++ r.value ++ "," ++ r.case ++ "," ++ r.power ++ ","
    ++ "Digikey," ++ r.manuf ++ ","
    ++ "Atlantix_R.SchLib," ++ "Res1," ++ "Atlantix_R.PcbLib,"
    ++ "RES" ++ r.case ++ "," ++ "Atlantix EDA, =Description" ++ "\r\n"

/-- `Resistor::set_full_part_name` of `src/src/lib.rs`. -/
def set_full_part_name (r : Resistor) : Resistor :=
  { r with full_part_name := r.set_part }

/-- `Resistor::update_value_for_decade` of `src/src/lib.rs`. -/
def update_value_for_decade (r : Resistor) (index : ℕ) (decade : ℕ) : Resistor :=
  match decade with
  | 1 => { r with value := fmtFixed 2 (r.series_array.getD index 0) }
  | 10 => { r with value := fmtFixedW 2 1 ((10 : ℚ) * r.series_array.getD index 0) }
  | 100 => { r with value := fmtFixedW 3 0 ((100 : ℚ) * r.series_array.getD index 0) }
  | 1000 => { r with value := fmtFixed 2 (r.series_array.getD index 0) ++ "K" }
  | 10000 => { r with value := fmtFixedW 2 1 ((10 : ℚ) * r.series_array.getD index 0) ++ "K" }
  | 100000 => { r with value := fmtFixedW 3 0 ((100 : ℚ) * r.series_array.getD index 0) ++ "K" }
  | _ => r

/-- `Resistor::generate` of `src/src/lib.rs`: one pass over the series for
one decade. Returns the updated struct and the function's return value — the
whole accumulated `full_series` (not just this decade's rows), exactly as the
source's `return alpha.to_string()` does. -/
def generate (r : Resistor) (decade : ℕ) : Resistor × List String :=
  let r' := (List.range r.series).foldl (fun acc index =>
    let acc1 :=
      match decade with
      | 1 =>
        ({ acc with value := fmtFixed 2 (acc.series_array.getD index 0) }).set_digikey_pn index decade
      | 10 =>
        ({ acc with value := fmtFixedW 2 1 ((10 : ℚ) * acc.series_array.getD index 0) }).set_digikey_pn index decade
      | 100 =>
        ({ acc with value := fmtFixedW 3 0 ((100 : ℚ) * acc.series_array.getD index 0) }).set_digikey_pn index decade
      | 1000 =>
        ({ acc with value := fmtFixed 2 (acc.series_array.getD index 0) ++ "K" }).set_digikey_pn index decade
      | 10000 =>
        ({ acc with value := fmtFixedW 2 1 ((10 : ℚ) * acc.series_array.getD index 0) ++ "K" }).set_digikey_pn index decade
      | 100000 =>
        ({ acc with value := fmtFixedW 3 0 ((100 : ℚ) * acc.series_array.getD index 0) ++ "K" }).set_digikey_pn index decade
      | _ => acc
    let acc2 := acc1.set_full_name.set_full_part_name
    { acc2 with full_series := acc2.full_series ++ [acc2.full_part_name] }) r
  (r', r'.full_series)

/-- `get_tolerance_from_series` of `src/src/lib.rs` (note the silent `"1%"`
default for unknown cardinalities). -/
def get_tolerance_from_series (series : ℕ) : String :=
  match series with
  | 192 => "0.5%"
  | 96 => "1%"
  | 48 => "2%"
  | 24 => "5%"
  | 12 => "10%"
  | 6 => "20%"
  | 3 => "50%"
  | _ => "1%"

/-- `get_power_rating_from_package` of `src/src/lib.rs` (note the silent
`"1/10W"` default for unknown packages). -/
def get_power_rating_from_package (package : String) : String :=
  match package with
  | "0201" => "1/20W"
  | "0402" => "1/16W"
  | "0603" => "1/10W"
  | "0805" => "1/8W"
  | "1206" => "1/4W"
  | "1210" => "1/2W"
  | "1218" => "1W"
  | "2010" => "3/4W"
  | "2512" => "1W"
  | _ => "1/10W"

end Resistor

/-- The Altium CSV header of `generate_altium_libraries` in
`src/examples/gen_resistor.rs`. -/
def csv_header : String :=
  "Part,Description,Value,Case,Power,Supplier 1,Supplier Part Number 1,Library Path,Library Ref,Footprint Path,Footprint Ref,Company,Comment\r\n"

/-- The per-package loop body of `generate_altium_libraries` in
`src/examples/gen_resistor.rs`: a fresh `Resistor`, then for each decade the
return value of `generate` is pushed onto the caller's own accumulator.
The result is the list of CSV data rows written for this package. -/
def generateAltiumRows (series : ℕ) (package : String) (decades : List ℕ) :
    List String :=
  (decades.foldl (fun (st : Resistor × List String) decade =>
      let p := st.1.generate decade
      (p.1, st.2 ++ p.2))
    (Resistor.new series package, [])).2

/-- The full CSV text `generate_altium_libraries` writes for one package:
the fixed header followed by the accumulated rows. -/
def altiumCsvContent (series : ℕ) (package : String) (decades : List ℕ) : String :=
  csv_header ++ String.join (generateAltiumRows series package decades)

/-- The `PackageSpec` struct of `src/src/kicad_footprint.rs`. -/
structure PackageSpec where
  imperial : String
  metric : String
  body_length : ℚ
  body_width : ℚ
  pad_width : ℚ
  pad_height : ℚ
  pad_center_x : ℚ
deriving DecidableEq

/-- `get_package_specs` of `src/src/kicad_footprint.rs` (unknown packages
yield `None`). -/
def get_package_specs (package : String) : Option PackageSpec :=
  match package with
  | "0201" => some ⟨"0201", "0603Metric", 0.6, 0.3, 0.28, 0.43, 0.26⟩
  | "0402" => some ⟨"0402", "1005Metric", 1.0, 0.5, 0.6, 0.65, 0.48⟩
  | "0603" => some ⟨"0603", "1608Metric", 1.6, 0.8, 0.9, 0.95, 0.775⟩
  | "0805" => some ⟨"0805", "2012Metric", 2.0, 1.25, 1.0, 1.45, 0.95⟩
  | "1206" => some ⟨"1206", "3216Metric", 3.2, 1.6, 1.15, 1.8, 1.475⟩
  | "1210" => some ⟨"1210", "3225Metric", 3.2, 2.5, 1.15, 2.7, 1.475⟩
  | "2010" => some ⟨"2010", "5025Metric", 5.0, 2.5, 1.5, 2.8, 2.25⟩
  | "2512" => some ⟨"2512", "6332Metric", 6.35, 3.2, 1.6, 3.5, 2.875⟩
  | _ => none

/-- The `Pad` struct of `src/src/kicad_footprint.rs`. The source's last
field is named `roundrect_rratio`; it is `rrRatioVal` here (a naming
constraint of this development), with unchanged meaning. -/
structure Pad where
  number : String
  pad_type : String
  shape : String
  at_x : ℚ
  at_y : ℚ
  size_x : ℚ
  size_y : ℚ
  rrRatioVal : Option ℚ
deriving DecidableEq, Inhabited

/-- The `KicadFootprint` struct of `src/src/kicad_footprint.rs`. -/
structure KicadFootprint where
  name : String
  description : String
  tags : String
  pads : List Pad
  body_size_x : ℚ
  body_size_y : ℚ
  courtyard_margin : ℚ

namespace KicadFootprint

/-- `KicadFootprint::new_smd_resistor` of `src/src/kicad_footprint.rs`. -/
def new_smd_resistor (package : String) : Option KicadFootprint :=
  match get_package_specs package with
  | none => none
  | some specs =>
    some
      { name := "R_" ++ specs.imperial ++ "_" ++ specs.metric
        description := "Resistor SMD " ++ specs.imperial ++ " (" ++ specs.metric
          ++ "), square (rectangular) end terminal, IPC_7351 nominal"
        tags := "resistor"
        pads :=
          [{ number := "1", pad_type := "smd", shape := "roundrect"
             at_x := -specs.pad_center_x, at_y := 0
             size_x := specs.pad_width, size_y := specs.pad_height
             rrRatioVal := some 0.25 },
           { number := "2", pad_type := "smd", shape := "roundrect"
             at_x := specs.pad_center_x, at_y := 0
             size_x := specs.pad_width, size_y := specs.pad_height
             rrRatioVal := some 0.25 }]
        body_size_x := specs.body_length
        body_size_y := specs.body_width
        courtyard_margin := 0.25 }

/-- The `courtyard_x` binding of `KicadFootprint::generate_footprint`:
body half-length plus the courtyard margin. -/
def courtyard_x (fp : KicadFootprint) : ℚ :=
  fp.body_size_x / 2 + fp.courtyard_margin

/-- The `courtyard_y` binding of `KicadFootprint::generate_footprint`:
body half-width plus the courtyard margin. -/
def courtyard_y (fp : KicadFootprint) : ℚ :=
  fp.body_size_y / 2 + fp.courtyard_margin

/-- One iteration of the pad loop of `KicadFootprint::generate_footprint`. -/
def padLine (pad : Pad) : String :=
  "  (pad " ++ pad.number ++ " " ++ pad.pad_type ++ " " ++ pad.shape
    ++ " (at " ++ fmtFixed 3 pad.at_x ++ " " ++ fmtFixed 3 pad.at_y
    ++ ") (size " ++ fmtFixed 2 pad.size_x ++ " " ++ fmtFixed 2 pad.size_y
    ++ ") (layers F.Cu F.Paste F.Mask)"
    ++ (match pad.rrRatioVal with
        | some rr => " (roundrect_rratio " ++ fmtFixed 2 rr ++ ")"
        | none => "")
    ++ ")\n"

/-- `KicadFootprint::generate_footprint` of `src/src/kicad_footprint.rs`.
The wall-clock `Utc::now()` timestamp the source formats into the `tedit`
field is taken as the argument `timestamp`; everything else is a pure
function of the struct, in the source's emission order. -/
def generate_footprint (fp : KicadFootprint) (timestamp : String) : String :=
  let half_x := fp.body_size_x / 2
  let half_y := fp.body_size_y / 2
  let silk_offset : ℚ := 0.15
  let silk_x := half_x - (fp.pads.getD 0 default).size_x / 2 - silk_offset
  "(module " ++ fp.name ++ " (layer F.Cu) (tedit " ++ timestamp ++ ")\n"
    ++ "  (descr \"" ++ fp.description ++ "\")\n"
    ++ "  (tags " ++ fp.tags ++ ")\n"
    ++ "  (attr smd)\n"
    ++ "  (fp_text reference REF** (at 0 -" ++ fmtFixed 2 (fp.body_size_y / 2 + 1)
    ++ ") (layer F.SilkS)\n    (effects (font (size 1 1) (thickness 0.15)))\n  )\n"
    ++ "  (fp_text value " ++ fp.name ++ " (at 0 " ++ fmtFixed 2 (fp.body_size_y / 2 + 1)
    ++ ") (layer F.Fab)\n    (effects (font (size 1 1) (thickness 0.15)))\n  )\n"
    ++ "  (fp_line (start -" ++ fmtFixed 3 half_x ++ " " ++ fmtFixed 3 half_y
    ++ ") (end -" ++ fmtFixed 3 half_x ++ " -" ++ fmtFixed 3 half_y
    ++ ") (layer F.Fab) (width 0.1))\n"
    ++ "  (fp_line (start -" ++ fmtFixed 3 half_x ++ " -" ++ fmtFixed 3 half_y
    ++ ") (end " ++ fmtFixed 3 half_x ++ " -" ++ fmtFixed 3 half_y
    ++ ") (layer F.Fab) (width 0.1))\n"
    ++ "  (fp_line (start " ++ fmtFixed 3 half_x ++ " -" ++ fmtFixed 3 half_y
    ++ ") (end " ++ fmtFixed 3 half_x ++ " " ++ fmtFixed 3 half_y
    ++ ") (layer F.Fab) (width 0.1))\n"
    ++ "  (fp_line (start " ++ fmtFixed 3 half_x ++ " " ++ fmtFixed 3 half_y
    ++ ") (end -" ++ fmtFixed 3 half_x ++ " " ++ fmtFixed 3 half_y
    ++ ") (layer F.Fab) (width 0.1))\n"
    ++ "  (fp_line (start -" ++ fmtFixed 3 silk_x ++ " -" ++ fmtFixed 3 (half_y + 0.11)
    ++ ") (end " ++ fmtFixed 3 silk_x ++ " -" ++ fmtFixed 3 (half_y + 0.11)
    ++ ") (layer F.SilkS) (width 0.12))\n"
    ++ "  (fp_line (start -" ++ fmtFixed 3 silk_x ++ " " ++ fmtFixed 3 (half_y + 0.11)
    ++ ") (end " ++ fmtFixed 3 silk_x ++ " " ++ fmtFixed 3 (half_y + 0.11)
    ++ ") (layer F.SilkS) (width 0.12))\n"
    ++ "  (fp_line (start -" ++ fmtFixed 2 fp.courtyard_x ++ " " ++ fmtFixed 2 fp.courtyard_y
    ++ ") (end -" ++ fmtFixed 2 fp.courtyard_x ++ " -" ++ fmtFixed 2 fp.courtyard_y
    ++ ") (layer F.CrtYd) (width 0.05))\n"
    ++ "  (fp_line (start -" ++ fmtFixed 2 fp.courtyard_x ++ " -" ++ fmtFixed 2 fp.courtyard_y
    ++ ") (end " ++ fmtFixed 2 fp.courtyard_x ++ " -" ++ fmtFixed 2 fp.courtyard_y
    ++ ") (layer F.CrtYd) (width 0.05))\n"
    ++ "  (fp_line (start " ++ fmtFixed 2 fp.courtyard_x ++ " -" ++ fmtFixed 2 fp.courtyard_y
    ++ ") (end " ++ fmtFixed 2 fp.courtyard_x ++ " " ++ fmtFixed 2 fp.courtyard_y
    ++ ") (layer F.CrtYd) (width 0.05))\n"
    ++ "  (fp_line (start " ++ fmtFixed 2 fp.courtyard_x ++ " " ++ fmtFixed 2 fp.courtyard_y
    ++ ") (end -" ++ fmtFixed 2 fp.courtyard_x ++ " " ++ fmtFixed 2 fp.courtyard_y
    ++ ") (layer F.CrtYd) (width 0.05))\n"
    ++ String.join (fp.pads.map padLine)
    ++ "  (model ${KICAD6_3DMODEL_DIR}/Resistor_SMD.3dshapes/" ++ fp.name
    ++ ".wrl\n    (at (xyz 0 0 0))\n    (scale (xyz 1 1 1))\n    (rotate (xyz 0 0 0))\n  )\n)\n"

end KicadFootprint

/-- The text of `generate_footprint` strictly before the `tedit` timestamp. -/
def footprintPre (fp : KicadFootprint) : String :=
  "(module " ++ fp.name ++ " (layer F.Cu) (tedit "

/-- The text of `generate_footprint` strictly after the `tedit` timestamp. -/
def footprintPost (fp : KicadFootprint) : String :=
  let half_x := fp.body_size_x / 2
  let half_y := fp.body_size_y / 2
  let silk_offset : ℚ := 0.15
  let silk_x := half_x - (fp.pads.getD 0 default).size_x / 2 - silk_offset
  ")\n"
    ++ "  (descr \"" ++ fp.description ++ "\")\n"
    ++ "  (tags " ++ fp.tags ++ ")\n"
    ++ "  (attr smd)\n"
    ++ "  (fp_text reference REF** (at 0 -" ++ fmtFixed 2 (fp.body_size_y / 2 + 1)
    ++ ") (layer F.SilkS)\n    (effects (font (size 1 1) (thickness 0.15)))\n  )\n"
    ++ "  (fp_text value " ++ fp.name ++ " (at 0 " ++ fmtFixed 2 (fp.body_size_y / 2 + 1)
    ++ ") (layer F.Fab)\n    (effects (font (size 1 1) (thickness 0.15)))\n  )\n"
    ++ "  (fp_line (start -" ++ fmtFixed 3 half_x ++ " " ++ fmtFixed 3 half_y
    ++ ") (end -" ++ fmtFixed 3 half_x ++ " -" ++ fmtFixed 3 half_y
    ++ ") (layer F.Fab) (width 0.1))\n"
    ++ "  (fp_line (start -" ++ fmtFixed 3 half_x ++ " -" ++ fmtFixed 3 half_y
    ++ ") (end " ++ fmtFixed 3 half_x ++ " -" ++ fmtFixed 3 half_y
    ++ ") (layer F.Fab) (width 0.1))\n"
    ++ "  (fp_line (start " ++ fmtFixed 3 half_x ++ " -" ++ fmtFixed 3 half_y
    ++ ") (end " ++ fmtFixed 3 half_x ++ " " ++ fmtFixed 3 half_y
    ++ ") (layer F.Fab) (width 0.1))\n"
    ++ "  (fp_line (start " ++ fmtFixed 3 half_x ++ " " ++ fmtFixed 3 half_y
    ++ ") (end -" ++ fmtFixed 3 half_x ++ " " ++ fmtFixed 3 half_y
    ++ ") (layer F.Fab) (width 0.1))\n"
    ++ "  (fp_line (start -" ++ fmtFixed 3 silk_x ++ " -" ++ fmtFixed 3 (half_y + 0.11)
    ++ ") (end " ++ fmtFixed 3 silk_x ++ " -" ++ fmtFixed 3 (half_y + 0.11)
    ++ ") (layer F.SilkS) (width 0.12))\n"
    ++ "  (fp_line (start -" ++ fmtFixed 3 silk_x ++ " " ++ fmtFixed 3 (half_y + 0.11)
    ++ ") (end " ++ fmtFixed 3 silk_x ++ " " ++ fmtFixed 3 (half_y + 0.11)
    ++ ") (layer F.SilkS) (width 0.12))\n"
    ++ "  (fp_line (start -" ++ fmtFixed 2 fp.courtyard_x ++ " " ++ fmtFixed 2 fp.courtyard_y
    ++ ") (end -" ++ fmtFixed 2 fp.courtyard_x ++ " -" ++ fmtFixed 2 fp.courtyard_y
    ++ ") (layer F.CrtYd) (width 0.05))\n"
    ++ "  (fp_line (start -" ++ fmtFixed 2 fp.courtyard_x ++ " -" ++ fmtFixed 2 fp.courtyard_y
    ++ ") (end " ++ fmtFixed 2 fp.courtyard_x ++ " -" ++ fmtFixed 2 fp.courtyard_y
    ++ ") (layer F.CrtYd) (width 0.05))\n"
    ++ "  (fp_line (start " ++ fmtFixed 2 fp.courtyard_x ++ " -" ++ fmtFixed 2 fp.courtyard_y
    ++ ") (end " ++ fmtFixed 2 fp.courtyard_x ++ " " ++ fmtFixed 2 fp.courtyard_y
    ++ ") (layer F.CrtYd) (width 0.05))\n"
    ++ "  (fp_line (start " ++ fmtFixed 2 fp.courtyard_x ++ " " ++ fmtFixed 2 fp.courtyard_y
    ++ ") (end -" ++ fmtFixed 2 fp.courtyard_x ++ " " ++ fmtFixed 2 fp.courtyard_y
    ++ ") (layer F.CrtYd) (width 0.05))\n"
    ++ String.join (fp.pads.map KicadFootprint.padLine)
    ++ "  (model ${KICAD6_3DMODEL_DIR}/Resistor_SMD.3dshapes/" ++ fp.name
    ++ ".wrl\n    (at (xyz 0 0 0))\n    (scale (xyz 1 1 1))\n    (rotate (xyz 0 0 0))\n  )\n)\n"

/-- `Resistor::generate_kicad_footprints` of `src/src/lib.rs` (`&self` is
unused): the (file name, content) pairs written, in order. Packages whose
`new_smd_resistor` is `None` are silently skipped by the source's
`if let Some(...)`. -/
def generate_kicad_footprints (packages : List String) (timestamp : String) :
    List (String × String) :=
  packages.foldl (fun acc package =>
    match KicadFootprint.new_smd_resistor package with
    | some footprint =>
      acc ++ [(footprint.name ++ ".kicad_mod", footprint.generate_footprint timestamp)]
    | none => acc) []

/-- The `KicadSymbol` struct of `src/src/kicad_symbol.rs`. -/
structure KicadSymbol where
  name : String
  reference : String
  value : String
  footprint : String
  datasheet : String
  keywords : String
  description : String
  symbol_style : String
  manufacturer : String
  mpn : String
  supplier : String
  supplier_pn : String
  supplier_url : String

namespace KicadSymbol

/-- `KicadSymbol::new` of `src/src/kicad_symbol.rs`. -/
def new (name value footprint : String) (symbol_style : String) : KicadSymbol :=
  { name := name
    reference := "R"
    value := value
    footprint := footprint
    datasheet := "~"
    keywords := "R res resistor"
    description := "Resistor, " ++ value
    symbol_style := symbol_style
    manufacturer := ""
    mpn := ""
    supplier := ""
    supplier_pn := ""
    supplier_url := "" }

/-- `KicadSymbol::with_manufacturer_info` of `src/src/kicad_symbol.rs`. -/
def with_manufacturer_info (s : KicadSymbol)
    (manufacturer mpn supplier supplier_pn supplier_url : String) : KicadSymbol :=
  { s with
    manufacturer := manufacturer
    mpn := mpn
    supplier := supplier
    supplier_pn := supplier_pn
    supplier_url := supplier_url }

/-- `KicadSymbol::generate_european_geometry` of `src/src/kicad_symbol.rs`. -/
def generate_european_geometry : String :=
  "      (rectangle (start -1.016 -2.54) (end 1.016 2.54)\n"
    ++ "        (stroke (width 0.254) (type default) (color 0 0 0 0))\n"
    ++ "        (fill (type none))\n"
    ++ "      )"

/-- `KicadSymbol::generate_american_geometry` of `src/src/kicad_symbol.rs`. -/
def generate_american_geometry : String :=
  "      (polyline\n        (pts\n          (xy 0 -2.54)\n          (xy 0.635 -1.905)\n"
    ++ "          (xy -0.635 -0.635)\n          (xy 0.635 0.635)\n"
    ++ "          (xy -0.635 1.905)\n          (xy 0 2.54)\n        )\n"
    ++ "        (stroke (width 0.254) (type default) (color 0 0 0 0))\n"
    ++ "        (fill (type none))\n      )"

/-- `KicadSymbol::generate_symbol` of `src/src/kicad_symbol.rs`. -/
def generate_symbol (s : KicadSymbol) : String :=
  let symbol_geometry :=
    match s.symbol_style with
    | "american" => generate_american_geometry
    | _ => generate_european_geometry
  let manufacturer_properties :=
    if s.manufacturer ≠ "" then
      "\n    (property \"Manufacturer\" \"" ++ s.manufacturer
        ++ "\" (id 7) (at 0 0 0)\n      (effects (font (size 1.27 1.27)) hide)\n    )\n"
        ++ "    (property \"MPN\" \"" ++ s.mpn
        ++ "\" (id 8) (at 0 0 0)\n      (effects (font (size 1.27 1.27)) hide)\n    )\n"
        ++ "    (property \"Supplier\" \"" ++ s.supplier
        ++ "\" (id 9) (at 0 0 0)\n      (effects (font (size 1.27 1.27)) hide)\n    )\n"
        ++ "    (property \"SupplierPN\" \"" ++ s.supplier_pn
        ++ "\" (id 10) (at 0 0 0)\n      (effects (font (size 1.27 1.27)) hide)\n    )\n"
        ++ "    (property \"SupplierURL\" \"" ++ s.supplier_url
        ++ "\" (id 11) (at 0 0 0)\n      (effects (font (size 1.27 1.27)) hide)\n    )"
    else ""
  "  (symbol \"" ++ s.name
    ++ "\" (pin_numbers hide) (pin_names (offset 0)) (in_bom yes) (on_board yes)\n"
    ++ "    (property \"Reference\" \"" ++ s.reference
    ++ "\" (id 0) (at 2.032 0 90)\n      (effects (font (size 1.27 1.27)))\n    )\n"
    ++ "    (property \"Value\" \"" ++ s.value
    ++ "\" (id 1) (at 0 0 90)\n      (effects (font (size 1.27 1.27)))\n    )\n"
    ++ "    (property \"Footprint\" \"" ++ s.footprint
    ++ "\" (id 2) (at -1.778 0 90)\n      (effects (font (size 1.27 1.27)) hide)\n    )\n"
    ++ "    (property \"Datasheet\" \"" ++ s.datasheet
    ++ "\" (id 3) (at 0 0 0)\n      (effects (font (size 1.27 1.27)) hide)\n    )\n"
    ++ "    (property \"ki_keywords\" \"" ++ s.keywords
    ++ "\" (id 4) (at 0 0 0)\n      (effects (font (size 1.27 1.27)) hide)\n    )\n"
    ++ "    (property \"ki_description\" \"" ++ s.description
    ++ "\" (id 5) (at 0 0 0)\n      (effects (font (size 1.27 1.27)) hide)\n    )\n"
    ++ "    (property \"ki_fp_filters\" \"R_*\" (id 6) (at 0 0 0)\n"
    ++ "      (effects (font (size 1.27 1.27)) hide)\n    )"
    ++ manufacturer_properties
    ++ "\n    (symbol \"" ++ s.name ++ "_0_1\"\n" ++ symbol_geometry ++ "\n    )\n"
    ++ "    (symbol \"" ++ s.name ++ "_1_1\"\n"
    ++ "      (pin passive line (at 0 3.81 270) (length 1.27)\n"
    ++ "        (name \"~\" (effects (font (size 1.27 1.27))))\n"
    ++ "        (number \"1\" (effects (font (size 1.27 1.27))))\n"
    ++ "      )\n"
    ++ "      (pin passive line (at 0 -3.81 90) (length 1.27)\n"
    ++ "        (name \"~\" (effects (font (size 1.27 1.27))))\n"
    ++ "        (number \"2\" (effects (font (size 1.27 1.27))))\n"
    ++ "      )\n    )\n  )"

end KicadSymbol

/-- `KicadSymbolLib::generate_library` of `src/src/kicad_symbol.rs`. The
source binds a `Utc::now()` date string (taken here as the argument
`timestamp`) but never uses it: the emitted text is the fixed header, each
symbol, and the closing parenthesis. -/
def KicadSymbolLib.generate_library (timestamp : String) (symbols : List KicadSymbol) :
    String :=
  let _ := timestamp
  let lib_content := "(kicad_symbol_lib (version 20211014) (generator atlantix-eda)\n"
  let lib_content := symbols.foldl (fun acc symbol =>
    acc ++ symbol.generate_symbol ++ "\n") lib_content
  lib_content ++ ")\n"

/-- The property bundle of spec section 8 item 1 for one series cardinality:
the expansion has exactly `S` entries, entry `i` is the formula value
`round(10^(i/S)·100)/100`, the first entry is 1.00, the sequence is strictly
increasing, and every entry lies in `[1, 10)`. -/
def ESeriesExpansionHolds (S : ℕ) : Prop :=
  (seriesArrayR S).length = S ∧
  (∀ i, i < S → (seriesArrayR S)[i]? =
      some (((round ((10:ℝ) ^ ((i:ℝ)/(S:ℝ)) * 100) : ℤ) : ℝ) / 100)) ∧
  (seriesArrayR S).head? = some 1 ∧
  List.Pairwise (· < ·) (seriesArrayR S) ∧
  (∀ x ∈ seriesArrayR S, 1 ≤ x ∧ x < 10)

lemma findFrom_min (P : ℕ → Bool) :
    ∀ (fuel start m : ℕ), start ≤ m → m < start + fuel → P m = true →
      (∀ k, start ≤ k → k < m → P k = false) → findFrom P fuel start = m := by
  intro fuel
  induction fuel with
  | zero =>
    intro start m h1 h2 _ _
    omega
  | succ fuel ih =>
    intro start m h1 h2 hPm hmin
    unfold findFrom
    by_cases hs : P start = true
    · have heq : start = m := by
        by_contra hne
        have hlt : start < m := lt_of_le_of_ne h1 hne
        have := hmin start le_rfl hlt
        simp [hs] at this
      subst heq
      simp [hPm]
    · have h1' : start + 1 ≤ m := by
        rcases Nat.eq_or_lt_of_le h1 with h | h
        · exact absurd (h ▸ hPm) hs
        · omega
      simp only [Bool.not_eq_true] at hs
      simp only [hs, Bool.false_eq_true, if_false]
      exact ih (start + 1) m h1' (by omega) hPm (fun k hk1 hk2 => hmin k (by omega) hk2)

lemma rpow_self_pow (S i : ℕ) (hS : S ≠ 0) :
    (((10:ℝ) ^ ((i:ℝ)/(S:ℝ))) ^ (S:ℕ)) = 10 ^ i := by
  rw [← Real.rpow_natCast ((10:ℝ) ^ ((i:ℝ)/(S:ℝ))) S, ← Real.rpow_mul (by norm_num)]
  rw [div_mul_cancel₀]
  · exact Real.rpow_natCast 10 i
  · exact_mod_cast hS

lemma key_iff (S i k : ℕ) (hS : 1 ≤ S) :
    (200 ^ S * 10 ^ i < (2 * k + 1) ^ S) ↔
      ((10:ℝ) ^ ((i:ℝ)/(S:ℝ)) * 100 < (k:ℝ) + 1/2) := by
  set a : ℝ := (10:ℝ) ^ ((i:ℝ)/(S:ℝ)) with ha
  have hapos : 0 < a := Real.rpow_pos_of_pos (by norm_num) _
  have hpow : (200 * a) ^ (S:ℕ) = ((200:ℝ) ^ S * 10 ^ i) := by
    rw [mul_pow, rpow_self_pow S i (by omega)]
  constructor
  · intro h
    have hr : ((200:ℝ) ^ S * 10 ^ i) < ((2 * k + 1 : ℕ) : ℝ) ^ (S:ℕ) := by
      push_cast
      exact_mod_cast h
    rw [← hpow] at hr
    have := lt_of_pow_lt_pow_left₀ (S:ℕ) (by positivity) hr
    push_cast at this
    nlinarith
  · intro h
    have hbase : 200 * a < ((2 * k + 1 : ℕ) : ℝ) := by push_cast; nlinarith
    have hr := pow_lt_pow_left₀ hbase (by positivity) (by omega : (S:ℕ) ≠ 0)
    rw [hpow] at hr
    exact_mod_cast hr

lemma pow101 (S : ℕ) (h2 : S ≤ 192) : ((101:ℝ)/100) ^ (S:ℕ) ≤ 10 := by
  have h1 : ((101:ℝ)/100) ^ (S:ℕ) ≤ ((101:ℝ)/100) ^ (192:ℕ) :=
    pow_le_pow_right₀ (by norm_num) h2
  have h2' : ((101:ℝ)/100) ^ (192:ℕ) ≤ 10 := by
    rw [div_pow, div_le_iff₀ (by positivity)]
    have : (101:ℕ) ^ 192 ≤ 10 * 100 ^ 192 := by decide
    exact_mod_cast this
  linarith

lemma ten_rpow_inv_ge (S : ℕ) (h1 : 1 ≤ S) (h2 : S ≤ 192) :
    (101/100 : ℝ) ≤ (10:ℝ) ^ ((1:ℝ)/(S:ℝ)) := by
  have hS : (S:ℕ) ≠ 0 := by omega
  have hkey : (((10:ℝ) ^ ((1:ℝ)/(S:ℝ))) ^ (S:ℕ)) = 10 := by
    have := rpow_self_pow S 1 hS
    simpa using this
  refine le_of_pow_le_pow_left₀ hS (by positivity) ?_
  rw [hkey]
  exact pow101 S h2

lemma x_lb (S i : ℕ) : (100:ℝ) ≤ (10:ℝ) ^ ((i:ℝ)/(S:ℝ)) * 100 := by
  have h1 : (1:ℝ) ≤ (10:ℝ) ^ ((i:ℝ)/(S:ℝ)) := by
    rw [show (1:ℝ) = (10:ℝ) ^ (0:ℝ) by simp]
    apply Real.rpow_le_rpow_of_exponent_le (by norm_num)
    positivity
  nlinarith

lemma x_ub (S i : ℕ) (h1 : 1 ≤ S) (h2 : S ≤ 192) (hi : i < S) :
    (10:ℝ) ^ ((i:ℝ)/(S:ℝ)) * 100 < 999.5 := by
  have hS0 : (0:ℝ) < (S:ℝ) := by exact_mod_cast h1
  have hiS : (i:ℝ) ≤ (S:ℝ) - 1 := by
    have : (i:ℝ) + 1 ≤ (S:ℝ) := by exact_mod_cast hi
    linarith
  have hexp : (i:ℝ)/(S:ℝ) ≤ 1 - 1/(S:ℝ) := by
    rw [div_le_iff₀ hS0]
    field_simp
    linarith
  have h10 : (10:ℝ) ^ ((i:ℝ)/(S:ℝ)) ≤ (10:ℝ) ^ (1 - 1/(S:ℝ)) :=
    Real.rpow_le_rpow_of_exponent_le (by norm_num) hexp
  have hsplit : (10:ℝ) ^ (1 - 1/(S:ℝ)) = 10 / (10:ℝ) ^ ((1:ℝ)/(S:ℝ)) := by
    rw [Real.rpow_sub (by norm_num), Real.rpow_one]
  have hden := ten_rpow_inv_ge S h1 h2
  have hpos : (0:ℝ) < (10:ℝ) ^ ((1:ℝ)/(S:ℝ)) := Real.rpow_pos_of_pos (by norm_num) _
  have hdiv : 10 / (10:ℝ) ^ ((1:ℝ)/(S:ℝ)) ≤ 10 / (101/100) := by
    apply div_le_div_of_nonneg_left (by norm_num) (by norm_num) hden
  have : (10:ℝ) ^ ((i:ℝ)/(S:ℝ)) ≤ 1000/101 := by
    rw [hsplit] at h10
    calc (10:ℝ) ^ ((i:ℝ)/(S:ℝ)) ≤ 10 / (10:ℝ) ^ ((1:ℝ)/(S:ℝ)) := h10
    _ ≤ 10 / (101/100) := hdiv
    _ = 1000/101 := by norm_num
  nlinarith

lemma eseriesN_eq (S i : ℕ) (h1 : 1 ≤ S) (h2 : S ≤ 192) (hi : i < S) :
    ((eseriesN S i : ℤ)) = round ((10:ℝ) ^ ((i:ℝ)/(S:ℝ)) * 100) := by
  set x : ℝ := (10:ℝ) ^ ((i:ℝ)/(S:ℝ)) * 100 with hx
  have hlb := x_lb S i
  have hub := x_ub S i h1 h2 hi
  have hn_lb : (100:ℤ) ≤ ⌊x + 1/2⌋ := by
    apply Int.le_floor.mpr
    push_cast
    linarith
  have hn_ub : ⌊x + 1/2⌋ < 1000 := by
    apply Int.floor_lt.mpr
    push_cast
    norm_num at hub ⊢
    linarith
  set m : ℕ := (⌊x + 1/2⌋).toNat with hm
  have hmz : (m:ℤ) = ⌊x + 1/2⌋ := Int.toNat_of_nonneg (by omega)
  have hPiff : ∀ k : ℕ, (200 ^ S * 10 ^ i < (2 * k + 1) ^ S) ↔ m ≤ k := by
    intro k
    rw [key_iff S i k h1]
    constructor
    · intro h
      have hfl : ⌊x + 1/2⌋ < (k:ℤ) + 1 := by
        apply Int.floor_lt.mpr
        push_cast
        linarith
      omega
    · intro h
      have hfl : x + 1/2 < (⌊x + 1/2⌋ : ℝ) + 1 := Int.lt_floor_add_one _
      have hk : (⌊x + 1/2⌋ : ℝ) ≤ (k:ℝ) := by
        have : ((m:ℤ):ℝ) ≤ ((k:ℕ):ℝ) := by exact_mod_cast h
        rw [hmz] at this
        exact_mod_cast this
      linarith
  have hff := findFrom_min (fun n => decide (200 ^ S * 10 ^ i < (2 * n + 1) ^ S))
    1000 100 m (by omega) (by omega)
    (decide_eq_true ((hPiff m).mpr le_rfl))
    (fun k _ hk2 => decide_eq_false (fun hp => absurd ((hPiff k).mp hp) (by omega)))
  have heq : eseriesN S i = m := hff
  rw [heq, round_eq, hmz]

lemma es_round_lb (S i : ℕ) : (100:ℤ) ≤ round ((10:ℝ) ^ ((i:ℝ)/(S:ℝ)) * 100) := by
  rw [round_eq]
  apply Int.le_floor.mpr
  have := x_lb S i
  push_cast
  linarith

lemma es_round_ub (S i : ℕ) (h1 : 1 ≤ S) (h2 : S ≤ 192) (hi : i < S) :
    round ((10:ℝ) ^ ((i:ℝ)/(S:ℝ)) * 100) ≤ 999 := by
  rw [round_eq]
  have hub := x_ub S i h1 h2 hi
  have : ⌊(10:ℝ) ^ ((i:ℝ)/(S:ℝ)) * 100 + 1/2⌋ < 1000 := by
    apply Int.floor_lt.mpr
    push_cast
    norm_num at hub ⊢
    linarith
  omega

lemma es_round_lt (S i j : ℕ) (h1 : 1 ≤ S) (h2 : S ≤ 192) (hij : i < j) :
    round ((10:ℝ) ^ ((i:ℝ)/(S:ℝ)) * 100) < round ((10:ℝ) ^ ((j:ℝ)/(S:ℝ)) * 100) := by
  have hS0 : (0:ℝ) < (S:ℝ) := by
    have : (1:ℝ) ≤ (S:ℝ) := by exact_mod_cast h1
    linarith
  have hstep : (10:ℝ) ^ (((i:ℝ)+1)/(S:ℝ)) = (10:ℝ) ^ ((i:ℝ)/(S:ℝ)) * (10:ℝ) ^ ((1:ℝ)/(S:ℝ)) := by
    rw [← Real.rpow_add (by norm_num)]
    ring_nf
  have h101 := ten_rpow_inv_ge S h1 h2
  have hpos : (0:ℝ) < (10:ℝ) ^ ((i:ℝ)/(S:ℝ)) := Real.rpow_pos_of_pos (by norm_num) _
  have hlb1 : (1:ℝ) ≤ (10:ℝ) ^ ((i:ℝ)/(S:ℝ)) := by
    have := x_lb S i
    nlinarith
  have hplus : (10:ℝ) ^ ((i:ℝ)/(S:ℝ)) * 100 + 1 ≤ (10:ℝ) ^ (((i:ℝ)+1)/(S:ℝ)) * 100 := by
    rw [hstep]
    nlinarith
  have hmono : (10:ℝ) ^ (((i:ℝ)+1)/(S:ℝ)) ≤ (10:ℝ) ^ ((j:ℝ)/(S:ℝ)) := by
    apply Real.rpow_le_rpow_of_exponent_le (by norm_num)
    have hj' : (i:ℝ) + 1 ≤ (j:ℝ) := by exact_mod_cast hij
    gcongr
  have hxx : (10:ℝ) ^ ((i:ℝ)/(S:ℝ)) * 100 + 1 ≤ (10:ℝ) ^ ((j:ℝ)/(S:ℝ)) * 100 := by nlinarith
  rw [round_eq, round_eq]
  have hA : (↑⌊(10:ℝ) ^ ((i:ℝ)/(S:ℝ)) * 100 + 1/2⌋ : ℝ) ≤ (10:ℝ) ^ ((i:ℝ)/(S:ℝ)) * 100 + 1/2 :=
    Int.floor_le _
  apply Int.lt_iff_add_one_le.mpr
  apply Int.le_floor.mpr
  push_cast
  linarith

lemma seriesArrayR_eq_eseriesQ (S : ℕ) (h1 : 1 ≤ S) (h2 : S ≤ 192) :
    seriesArrayR S = (eseriesQ S).map (fun q : ℚ => (q : ℝ)) := by
  unfold seriesArrayR eseriesQ
  rw [List.map_map]
  apply List.map_congr_left
  intro i hi
  rw [List.mem_range] at hi
  rw [← eseriesN_eq S i h1 h2 hi]
  simp only [Function.comp]
  push_cast
  ring

/-- C2: for every supported series cardinality S in {3,6,12,24,48,96,192},
the E-series expansion returns exactly S values computed as
round(10^(i/S)·100)/100, the sequence is strictly increasing, its first
value equals 1.00, and every value lies in [1.00, 10.00). (Modelled in
exact real arithmetic; the code's float evaluation rounds to the same
2-decimal values on every supported cardinality, see the module comment.) -/
theorem eseries_expansion_spec (S : ℕ) (hS : S ∈ supportedSeries) :
    ESeriesExpansionHolds S := by
  have hrange : 1 ≤ S ∧ S ≤ 192 := by
    simp only [supportedSeries, List.mem_cons, List.not_mem_nil, or_false] at hS
    omega
  obtain ⟨h1, h2⟩ := hrange
  refine ⟨?_, ?_, ?_, ?_, ?_⟩
  · simp [seriesArrayR]
  · intro i hi
    simp [seriesArrayR, List.getElem?_map, List.getElem?_range, hi]
  · obtain ⟨k, rfl⟩ : ∃ k, S = k + 1 := ⟨S - 1, by omega⟩
    rw [seriesArrayR, List.range_succ_eq_map]
    simp only [List.map_cons, List.head?_cons, Nat.cast_zero, zero_div, Real.rpow_zero,
      one_mul]
    norm_num
  · rw [seriesArrayR, List.pairwise_map]
    rw [List.pairwise_iff_getElem]
    intro i j hi hj hij
    simp only [List.getElem_range] at *
    rw [List.length_range] at hi hj
    have hlt := es_round_lt S i j h1 h2 hij
    have hc : ((round ((10:ℝ) ^ ((i:ℝ)/(S:ℝ)) * 100) : ℤ) : ℝ)
        < ((round ((10:ℝ) ^ ((j:ℝ)/(S:ℝ)) * 100) : ℤ) : ℝ) := by exact_mod_cast hlt
    linarith
  · intro x hx
    rw [seriesArrayR, List.mem_map] at hx
    obtain ⟨i, hi, rfl⟩ := hx
    rw [List.mem_range] at hi
    constructor
    · have := es_round_lb S i
      have hc : ((100:ℤ):ℝ) ≤ ((round ((10:ℝ) ^ ((i:ℝ)/(S:ℝ)) * 100) : ℤ) : ℝ) := by
        exact_mod_cast this
      push_cast at hc ⊢
      linarith
    · have := es_round_ub S i h1 h2 hi
      have hc : ((round ((10:ℝ) ^ ((i:ℝ)/(S:ℝ)) * 100) : ℤ) : ℝ) ≤ ((999:ℤ):ℝ) := by
        exact_mod_cast this
      push_cast at hc ⊢
      linarith

/-- Witness for C2 at the concrete supported cardinality 96. -/
theorem eseries_expansion_spec_witness :
    96 ∈ supportedSeries ∧ ESeriesExpansionHolds 96 :=
  ⟨by decide, eseries_expansion_spec 96 (by decide)⟩

/-- C10 (amended): the hard-coded CLI tables for E96 and E48 are
element-for-element equal to the formula-based expansions, and for every
supported cardinality the two formula-based expansions (`Resistor::new` and
`ESeriesCache`) are equal to each other — the equality is stated only on
the supported set, where the exact-real model provably matches both the
f32-exponent path of `lib.rs` and the f64 path of `resources.rs` (outside
it, e.g. at S = 238, i = 215, the two float paths round differently); the
E24 hard-coded table, however, holds the canonical E24 values and differs
from the formula values (e.g. index 2: 1.2 versus 1.21). -/
theorem eseries_tables_amended :
    Cli.e96.map (fun q : ℚ => (q : ℝ)) = seriesArrayR 96 ∧
    Cli.e48.map (fun q : ℚ => (q : ℝ)) = seriesArrayR 48 ∧
    (∀ S ∈ supportedSeries, seriesArrayR S = ESeriesCache.calculate S) ∧
    Cli.e24.map (fun q : ℚ => (q : ℝ)) ≠ seriesArrayR 24 := by
  refine ⟨?_, ?_, fun S _ => rfl, ?_⟩
  · rw [seriesArrayR_eq_eseriesQ 96 (by norm_num) (by norm_num)]
    have h : Cli.e96 = eseriesQ 96 := by decide
    rw [h]
  · rw [seriesArrayR_eq_eseriesQ 48 (by norm_num) (by norm_num)]
    have h : Cli.e48 = eseriesQ 48 := by decide
    rw [h]
  · intro h
    rw [seriesArrayR_eq_eseriesQ 24 (by norm_num) (by norm_num)] at h
    have h2 := congrArg (fun l : List ℝ => l[2]?) h
    simp only [List.getElem?_map] at h2
    have hL : Cli.e24[2]? = some (1.2 : ℚ) := by decide
    have hR : (eseriesQ 24)[2]? = some ((121 : ℚ)/100) := by decide
    rw [hL, hR] at h2
    simp only [Option.map_some'] at h2
    have h3 : ((1.2 : ℚ) : ℝ) = ((121/100 : ℚ) : ℝ) := Option.some.inj h2
    have h4 : (1.2 : ℚ) = 121/100 := by exact_mod_cast h3
    exact absurd h4 (by decide)

/-- Counterexample for C10: at index 2 the CLI's E24 table holds 1.2 while
the formula-based expansion holds round(10^(2/24)·100)/100 = 1.21. -/
theorem cli_e24_table_counterexample :
    (Cli.e24.map (fun q : ℚ => (q : ℝ)))[2]? ≠ (seriesArrayR 24)[2]? := by
  rw [seriesArrayR_eq_eseriesQ 24 (by norm_num) (by norm_num)]
  intro h
  simp only [List.getElem?_map] at h
  have hL : Cli.e24[2]? = some (1.2 : ℚ) := by decide
  have hR : (eseriesQ 24)[2]? = some ((121 : ℚ)/100) := by decide
  rw [hL, hR] at h
  simp only [Option.map_some'] at h
  have h3 : ((1.2 : ℚ) : ℝ) = ((121/100 : ℚ) : ℝ) := Option.some.inj h
  have h4 : (1.2 : ℚ) = 121/100 := by exact_mod_cast h3
  exact absurd h4 (by decide)

lemma string_append_assoc (a b c : String) : a ++ b ++ c = a ++ (b ++ c) := by
  rcases a with ⟨a⟩
  rcases b with ⟨b⟩
  rcases c with ⟨c⟩
  show String.mk (a ++ b ++ c) = String.mk (a ++ (b ++ c))
  rw [List.append_assoc]

lemma cascade_eq (o : ℚ) (b1 b2 b3 b4 b5 b6 b7 : String) :
    (if o < 10 then b1 else if o < 100 then b2 else if o < 1000 then b3
     else if o < 10000 then b4 else if o < 100000 then b5
     else if o < 1000000 then b6 else b7)
  = (if o < 10 then b1 else if 10 ≤ o ∧ o < 100 then b2
     else if 100 ≤ o ∧ o < 1000 then b3 else if 1000 ≤ o ∧ o < 10000 then b4
     else if 10000 ≤ o ∧ o < 100000 then b5
     else if 100000 ≤ o ∧ o < 1000000 then b6 else b7) := by
  rcases lt_or_le o 10 with h1 | h1
  · rw [if_pos h1, if_pos h1]
  · rw [if_neg (not_lt.mpr h1), if_neg (not_lt.mpr h1)]
    rcases lt_or_le o 100 with h2 | h2
    · rw [if_pos h2, if_pos ⟨h1, h2⟩]
    · rw [if_neg (not_lt.mpr h2), if_neg (fun hc : 10 ≤ o ∧ o < 100 => not_lt.mpr h2 hc.2)]
      rcases lt_or_le o 1000 with h3 | h3
      · rw [if_pos h3, if_pos ⟨h2, h3⟩]
      · rw [if_neg (not_lt.mpr h3), if_neg (fun hc : 100 ≤ o ∧ o < 1000 => not_lt.mpr h3 hc.2)]
        rcases lt_or_le o 10000 with h4 | h4
        · rw [if_pos h4, if_pos ⟨h3, h4⟩]
        · rw [if_neg (not_lt.mpr h4),
            if_neg (fun hc : 1000 ≤ o ∧ o < 10000 => not_lt.mpr h4 hc.2)]
          rcases lt_or_le o 100000 with h5 | h5
          · rw [if_pos h5, if_pos ⟨h4, h5⟩]
          · rw [if_neg (not_lt.mpr h5),
              if_neg (fun hc : 10000 ≤ o ∧ o < 100000 => not_lt.mpr h5 hc.2)]
            rcases lt_or_le o 1000000 with h6 | h6
            · rw [if_pos h6, if_pos ⟨h5, h6⟩]
            · rw [if_neg (not_lt.mpr h6),
                if_neg (fun hc : 100000 ≤ o ∧ o < 1000000 => not_lt.mpr h6 hc.2)]

/-- C3: the KOA Speer encoder realizes exactly the exponent-suffix scheme of
spec section 4.4 (the seven ranges of `koaCodeSpec`, modelled from the
spec's words, agree with the code pointwise), and for 1000 Ω in package
0603 it produces `RK73H1JTTD1002F`. -/
theorem koa_encoding_spec :
    (∀ ohms : ℚ, Ecs.format_koa_resistance ohms = koaCodeSpec ohms) ∧
    Ecs.generate_koa_mpn 1000 "0603" = "RK73H1JTTD1002F" := by
  constructor
  · intro o
    unfold Ecs.format_koa_resistance koaCodeSpec
    exact cascade_eq o _ _ _ _ _ _ _
  · decide

/-- C5: the value formatter realizes exactly the decade-dependent
significant-digit policy of spec section 4.3 (`formatResistanceSpec`,
modelled from the spec's words, agrees with the code pointwise), and the
boundary cases hold: 9.99 formats as "9.99" and 10.00 as "10.0". Stability
under re-invocation holds because the embedded formatter is a pure
function of its argument. -/
theorem value_formatter_spec :
    (∀ ohms : ℚ, Ecs.format_resistance ohms = formatResistanceSpec ohms) ∧
    Ecs.format_resistance (999/100) = "9.99" ∧
    Ecs.format_resistance 10 = "10.0" := by
  refine ⟨?_, by decide, by decide⟩
  intro o
  unfold Ecs.format_resistance formatResistanceSpec
  exact cascade_eq o _ _ _ _ _ _ _

/-- C6 (amended): only the CLI's string-keyed `get_e_series` rejects an
unsupported series (and `resistors` then aborts with zero files written);
the tolerance lookups silently map unknown cardinalities to the default
"1%" instead of failing, and the formula-based expansion accepts any
cardinality without error (`Resistor::new 7` yields 7 values). -/
theorem series_error_handling_amended :
    Cli.get_e_series "E7" = .error "Unknown E-series: E7" ∧
    Cli.resistorsFiles "E7" ["0603"] = .error "Unknown E-series: E7" ∧
    Resistor.get_tolerance_from_series 7 = "1%" ∧
    Ecs.get_tolerance_from_series 7 = "1%" ∧
    Cli.get_tolerance "E7" = "1%" ∧
    (Resistor.new 7 "0603").series_array.length = 7 := by
  refine ⟨rfl, rfl, rfl, rfl, rfl, by decide⟩

/-- Counterexample for C6: the tolerance lookup at the unsupported
cardinality 7 silently returns the default "1%" instead of failing, and
the expansion happily returns 7 values. -/
theorem tolerance_silent_default_counterexample :
    Resistor.get_tolerance_from_series 7 = "1%" ∧
    Ecs.get_tolerance_from_series 7 = "1%" ∧
    (Resistor.new 7 "0603").series_array.length = 7 := by
  refine ⟨rfl, rfl, by decide⟩

/-- C7 (amended): unknown package codes are not a hard error anywhere: the
power lookups silently return the default "1/10W", `get_package_specs`
returns `None`, and footprint generation silently skips the unknown package
(only the known packages' files are written, and no error is raised). -/
theorem package_error_handling_amended :
    Resistor.get_power_rating_from_package "9999" = "1/10W" ∧
    Ecs.get_power_from_package "9999" = "1/10W" ∧
    Cli.get_power_rating "9999" = "1/10W" ∧
    get_package_specs "9999" = none ∧
    (generate_kicad_footprints ["0603", "9999"] "TS").map Prod.fst
      = ["R_0603_1608Metric.kicad_mod"] := by
  refine ⟨rfl, rfl, rfl, rfl, by decide⟩

/-- Counterexample for C7: the power lookup at the unknown package "9999"
silently returns the default "1/10W" instead of failing, and footprint
generation for it silently writes nothing instead of failing. -/
theorem power_silent_default_counterexample :
    Resistor.get_power_rating_from_package "9999" = "1/10W" ∧
    generate_kicad_footprints ["9999"] "TS" = [] := by
  refine ⟨rfl, rfl⟩

/-- C9: the 0603 footprint places its two SMD pads at x = ∓0.775 mm with
pad size 0.9 × 0.95 mm, and its courtyard rectangle sits at
±(0.8 + 0.25) mm × ±(0.4 + 0.25) mm (body half-dimensions plus the 0.25 mm
courtyard margin). -/
theorem footprint_0603_geometry :
    (KicadFootprint.new_smd_resistor "0603").map
        (fun fp => fp.pads.map (fun p => (p.at_x, p.at_y, p.size_x, p.size_y)))
      = some [(-0.775, 0, 0.9, 0.95), (0.775, 0, 0.9, 0.95)] ∧
    (KicadFootprint.new_smd_resistor "0603").map
        (fun fp => (fp.courtyard_x, fp.courtyard_y))
      = some (0.8 + 0.25, 0.4 + 0.25) ∧
    (KicadFootprint.new_smd_resistor "0603").map
        (fun fp => fp.pads.map Pad.rrRatioVal)
      = some [some 0.25, some 0.25] := by
  refine ⟨by decide, by decide, by decide⟩

/-- C1 is violated by the code (a bug): `Resistor::generate` returns the
whole accumulated `full_series`, and `generate_altium_libraries` appends
every return value, so rows of earlier decades are re-emitted. For series
cardinality 3, one package and decades [1, 10] the CSV gets 3 + 6 = 9 data
rows where the claim requires 3 × 2 = 6; already the second `generate` call
returns 6 rows (the first decade's 3 rows re-emitted), not 3. -/
theorem altium_row_count_quadratic_bug :
    (generateAltiumRows 3 "0603" [1, 10]).length = 9 ∧
    (((Resistor.new 3 "0603").generate 1).1.generate 10).2.length = 6 ∧
    (9 : ℕ) ≠ 3 * 2 := by
  refine ⟨by decide, by decide, by decide⟩

/-- C4 (amended): the library's Vishay encoder (`Resistor::generate_vishay_mpn`
in `src/src/lib.rs`) produces `CRCW06031K00FKEA` for value "1.00K" in package
0603, rewrites K-suffixed values in [1, 10) as `{int}K{frac:02}` and values
at or above 10 as `{int}K0`, and appends the fixed suffix `FKEA`; the ECS
path's simplified encoder, however, emits `CRCW{package}{ohms:04.0}FKEA`
(`CRCW06031000FKEA` at 1000 Ω / 0603), not the claimed part number. -/
theorem vishay_encoding_amended :
    (Resistor.new 96 "0603").generate_vishay_mpn = "CRCW06031K00FKEA" ∧
    format_vishay_resistance "1.00K" = "1K00" ∧
    (∀ num : ℚ, 1 ≤ num → num < 10 →
      vishayKCode num = toString (rustTrunc num) ++ "K"
        ++ padZeros 2 (toString (rustRound ((num - (rustTrunc num : ℚ)) * 100)))) ∧
    (∀ num : ℚ, 10 ≤ num → vishayKCode num = toString (rustTrunc num) ++ "K0") ∧
    Ecs.generate_vishay_mpn 1000 "0603" = "CRCW06031000FKEA" := by
  refine ⟨by decide, by decide, ?_, ?_, by decide⟩
  · intro num hge hlt
    simp only [vishayKCode]
    rw [if_neg (not_le.mpr hlt), if_pos hge]
    by_cases hf : rustRound ((num - (rustTrunc num : ℚ)) * 100) = 0
    · rw [if_pos hf, hf]
      rw [show padZeros 2 (toString (0:ℤ)) = "00" from rfl]
      rw [string_append_assoc]
      rw [show ("K" ++ "00" : String) = "K00" from rfl]
    · rw [if_neg hf]
  · intro num h
    simp only [vishayKCode]
    rw [if_pos h]

/-- Witness for C4's amended rules at the concrete values 3/2 (giving
`1K50`) and 10 (giving `10K0`). -/
theorem vishay_encoding_amended_witness :
    (1:ℚ) ≤ 3/2 ∧ (3/2:ℚ) < 10 ∧
    vishayKCode (3/2) = toString (rustTrunc (3/2 : ℚ)) ++ "K"
      ++ padZeros 2 (toString (rustRound (((3/2 : ℚ) - (rustTrunc (3/2 : ℚ) : ℚ)) * 100))) ∧
    vishayKCode 10 = toString (rustTrunc (10 : ℚ)) ++ "K0" :=
  ⟨by norm_num, by norm_num,
   vishay_encoding_amended.2.2.1 (3/2) (by norm_num) (by norm_num),
   vishay_encoding_amended.2.2.2.1 10 (by norm_num)⟩

/-- Counterexample for C4: a component record produced by the ECS pipeline
with value 1000 Ω and package 0603 carries the Vishay part number
`CRCW06031000FKEA`, not the claimed `CRCW06031K00FKEA`. -/
theorem vishay_ecs_encoder_counterexample :
    Ecs.generate_vishay_mpn 1000 "0603" = "CRCW06031000FKEA" ∧
    Ecs.generate_vishay_mpn 1000 "0603" ≠ "CRCW06031K00FKEA" := by
  refine ⟨by decide, by decide⟩

/-- C8: the only wall-clock dependence of the serializers is the footprint
`tedit` field — `generate_footprint` is the fixed prefix, the timestamp,
and a fixed suffix, each a pure function of the footprint data alone — and
the symbol-library text is bit-identical across runs whatever the clock
says (the source computes a date string but never uses it). The Altium CSV
path (`altiumCsvContent`) takes no clock input at all. -/
theorem pipeline_determinism :
    (∀ (fp : KicadFootprint) (timestamp : String),
        fp.generate_footprint timestamp
          = footprintPre fp ++ timestamp ++ footprintPost fp) ∧
    (∀ (symbols : List KicadSymbol) (t1 t2 : String),
        KicadSymbolLib.generate_library t1 symbols
          = KicadSymbolLib.generate_library t2 symbols) := by
  constructor
  · intro fp ts
    simp only [KicadFootprint.generate_footprint, footprintPre, footprintPost,
      string_append_assoc]
  · intro symbols t1 t2
    rfl
